import Mathlib

/-!
Shallow embedding of the playtime-tracking core of `src/main.rs`
(a Discord game-time bot backed by a Postgres database).

The Postgres tables are modelled as Lean lists kept in insertion order:
  * `games(game_id BIGSERIAL PRIMARY KEY, name TEXT NOT NULL UNIQUE)`
  * `game_entries(user_id, game_id, playtime, PRIMARY KEY (user_id, game_id),
     FOREIGN KEY (game_id) REFERENCES games(game_id))`
  * `game_sessions(user_id, game_id, starttime, PRIMARY KEY (user_id, game_id),
     FOREIGN KEY (game_id) REFERENCES games(game_id))`
(schema from `build_db`, src/main.rs lines 115-157).  `build_db` also installs
a trigger `trigger_clear_sessions`: AFTER INSERT ON game_entries, the matching
`game_sessions` row (same user_id and game_id) is deleted.  The trigger fires
on INSERT only, not on UPDATE; the model reproduces that inside `add_playtime`.

Every database call in the source ends in `.unwrap()`: a constraint violation
(duplicate primary key, unique name, foreign key) makes the handler panic.
Each operation therefore returns `DB × Except Unit α`: the first component is
the database state when the operation finished or panicked (writes committed
before the panic persist), the second is `Except.error ()` exactly when the
Rust code would panic on a database error.

`SELECT ... fetch_optional` with no ORDER BY is modelled as `List.find?` on
the insertion-ordered table (first matching row); every scenario proved below
that goes through such a fetch has at most one matching row, so the choice of
row does not matter.  `SystemTime::now()` (the observation time of a close)
is passed in as an explicit argument.
-/

/-- A row of the `games` table (the activity catalog). -/
structure Game where
  game_id : Int
  name : String
deriving Repr, DecidableEq

/-- A row of the `game_entries` table (accumulated playtime per user/game). -/
structure Entry where
  user_id : Int
  game_id : Int
  playtime : Int
deriving Repr, DecidableEq

/-- A row of the `game_sessions` table (a live session). -/
structure Session where
  user_id : Int
  game_id : Int
  starttime : Int
deriving Repr, DecidableEq

/-- The database state: the three tables plus the BIGSERIAL counter that
feeds `games.game_id`. -/
structure DB where
  games : List Game
  game_entries : List Entry
  game_sessions : List Session
  next_game_id : Int
deriving Repr, DecidableEq

/-- The freshly created database (`build_db` on an empty schema; BIGSERIAL
starts at 1). -/
def emptyDB : DB := { games := [], game_entries := [], game_sessions := [], next_game_id := 1 }

/-- `is_game_in_db` (src/main.rs 61-66): `SELECT * FROM games WHERE name=$1`,
`fetch_optional ... is_some`. -/
def is_game_in_db (db : DB) (game_name : String) : Bool :=
  (db.games.find? (fun g => g.name == game_name)).isSome

/-- `add_game` (src/main.rs 109-113): `INSERT INTO games (name) VALUES ($1)`.
The UNIQUE constraint on `name` makes the insert fail (and `.unwrap()` panic)
when the name is already present; otherwise the row gets the next BIGSERIAL id. -/
def add_game (db : DB) (game_name : String) : DB × Except Unit Unit :=
  if db.games.any (fun g => g.name == game_name) then
    (db, Except.error ())
  else
    ({ db with games := db.games ++ [⟨db.next_game_id, game_name⟩],
               next_game_id := db.next_game_id + 1 }, Except.ok ())

/-- `get_game_id` (src/main.rs 82-87): `SELECT game_id FROM games WHERE
name=$1`, `fetch_one` — panics when no row exists. -/
def get_game_id (db : DB) (game_name : String) : Except Unit Int :=
  match db.games.find? (fun g => g.name == game_name) with
  | some g => Except.ok g.game_id
  | none => Except.error ()

/-- `add_playtime` (src/main.rs 89-107): look the (user_id, game_id) entry up;
if absent INSERT it with `playtime` as its value, otherwise
`UPDATE ... SET playtime=playtime+$1`.  The INSERT respects the FOREIGN KEY on
game_id (panic when the game does not exist) and fires the
`trigger_clear_sessions` trigger from `build_db`, which deletes the session
row with the same (user_id, game_id); the UPDATE fires no trigger. -/
def add_playtime (db : DB) (user_id game_id playtime : Int) : DB × Except Unit Unit :=
  match db.game_entries.find? (fun e => e.user_id == user_id && e.game_id == game_id) with
  | none =>
    if db.games.any (fun g => g.game_id == game_id) then
      ({ db with
          game_entries := db.game_entries ++ [⟨user_id, game_id, playtime⟩],
          game_sessions := db.game_sessions.filter
            (fun s => !(s.user_id == user_id && s.game_id == game_id)) },
       Except.ok ())
    else
      (db, Except.error ())
  | some _ =>
    ({ db with
        game_entries := db.game_entries.map
          (fun e =>
            if e.user_id == user_id && e.game_id == game_id then
              { e with playtime := e.playtime + playtime }
            else e) },
     Except.ok ())

/-- `save_session` (src/main.rs 25-40): fetch the user's session row
(`fetch_optional`); when none, return silently; otherwise compute
`playtime = currenttime - starttime` (no clamping) and call `add_playtime`.
`save_session` itself never deletes the session row: removal is left entirely
to the INSERT trigger inside `add_playtime`. -/
def save_session (db : DB) (user_id : Int) (currenttime : Int) : DB × Except Unit Unit :=
  match db.game_sessions.find? (fun s => s.user_id == user_id) with
  | none => (db, Except.ok ())
  | some row => add_playtime db user_id row.game_id (currenttime - row.starttime)

/-- `register_session` (src/main.rs 68-80): ensure the game exists
(`is_game_in_db` / `add_game`), fetch its id, then raw
`INSERT INTO game_sessions (user_id, game_id, starttime)`.  The PRIMARY KEY
(user_id, game_id) makes the insert fail (panic) when the user already has a
live session for that same game; a live session for a different game is left
in place and a second row is inserted. -/
def register_session (db : DB) (user_id : Int) (game_name : String) (starttime : Int) :
    DB × Except Unit Unit :=
  match (if is_game_in_db db game_name then (db, Except.ok ()) else add_game db game_name) with
  | (db1, Except.error e) => (db1, Except.error e)
  | (db1, Except.ok _) =>
    match get_game_id db1 game_name with
    | Except.error e => (db1, Except.error e)
    | Except.ok game_id =>
      if db1.game_sessions.any (fun s => s.user_id == user_id && s.game_id == game_id) then
        (db1, Except.error ())
      else
        ({ db1 with game_sessions := db1.game_sessions ++ [⟨user_id, game_id, starttime⟩] },
         Except.ok ())

/-- `resetall` (src/main.rs 159-163): `DELETE FROM game_entries;`,
`DELETE FROM game_sessions;`, `DELETE FROM games;` — the catalog is deleted
too.  (DELETE does not reset the BIGSERIAL counter.) -/
def resetall (db : DB) : DB :=
  { db with game_entries := [], game_sessions := [], games := [] }

/-- `reset` (src/main.rs 165-172): delete the given user's `game_entries`
rows, then their `game_sessions` rows. -/
def reset (db : DB) (user_id : Int) : DB :=
  { db with
      game_entries := db.game_entries.filter (fun e => !(e.user_id == user_id)),
      game_sessions := db.game_sessions.filter (fun s => !(s.user_id == user_id)) }

/-- `build_db` run against an already-built schema (src/main.rs 115-157):
the CREATE statements are no-ops, `DELETE FROM game_sessions;` clears the
session table; the trigger definition is modelled inside `add_playtime`. -/
def build_db (db : DB) : DB :=
  { db with game_sessions := [] }

/-- The serenity `ActivityType` values a presence activity can carry. -/
inductive ActivityKind where
  | Playing
  | Streaming
  | Listening
  | Watching
  | Custom
  | Competing
deriving Repr, DecidableEq

/-- One entry of `Presence.activities`.  `start_ms` stands for
`timestamps.start` (milliseconds); the source unwraps both the `timestamps`
option and its `start` field, so the two layers are collapsed into one
`Option` (either missing layer panics identically). -/
structure PresenceActivity where
  name : String
  kind : ActivityKind
  start_ms : Option Nat
deriving Repr, DecidableEq

/-- The inbound presence signal: the user and their activity list. -/
structure PresenceData where
  user_id : Int
  activities : List PresenceActivity
deriving Repr, DecidableEq

/-- `presence_update` (src/main.rs 266-278): an empty activity list means
"not playing" and triggers `save_session`; otherwise only the FIRST activity
is inspected, and only when its kind is `Playing` does the handler call
`register_session` with `starttime = Duration::from_millis(start).as_secs()`
(integer division by 1000).  Any other kind leaves the store untouched.
`currenttime` is the wall-clock second at which the signal is observed. -/
def presence_update (db : DB) (new_data : PresenceData) (currenttime : Int) :
    DB × Except Unit Unit :=
  match new_data.activities with
  | [] => save_session db new_data.user_id currenttime
  | a :: _ =>
    if a.kind == ActivityKind.Playing then
      match a.start_ms with
      | none => (db, Except.error ())
      | some ms => register_session db new_data.user_id a.name (Int.ofNat (ms / 1000))
    else
      (db, Except.ok ())

/-- Fold a list of presence signals (each paired with its observation time)
through `presence_update`, starting from `db`.  A panicking handler leaves the
writes it had already committed in place and the process keeps serving later
signals, so the fold continues from the returned state. -/
def runSignals (db : DB) : List (PresenceData × Int) → DB
  | [] => db
  | (p, t) :: rest => runSignals (presence_update db p t).1 rest

/-- The rows produced by the `get_summary` query's FROM/WHERE clause
(src/main.rs 49): `game_entries NATURAL JOIN games` (the shared column is
`game_id`) restricted to the given user, as (name, playtime) pairs. -/
def summaryRows (db : DB) (user_id : Int) : List (String × Int) :=
  (db.game_entries.filter (fun e => e.user_id == user_id)).filterMap
    (fun e => (db.games.find? (fun g => g.game_id == e.game_id)).map
      (fun g => (g.name, e.playtime)))

/-- Boolean check that a list of (name, playtime) pairs is ordered by
playtime descending (adjacent pairs non-increasing). -/
def sortedByPlaytimeDesc : List (String × Int) → Bool
  | [] => true
  | [_] => true
  | a :: b :: rest => decide (b.2 ≤ a.2) && sortedByPlaytimeDesc (b :: rest)

/-- `get_summary` (src/main.rs 42-59) runs
`SELECT name, playtime FROM game_entries NATURAL JOIN games WHERE user_id=$1
ORDER BY playtime DESC LIMIT 10`.  `ORDER BY playtime DESC` with no secondary
key leaves the relative order of equal-playtime rows unspecified, so the query
is embedded as a relation: `out` is a possible result iff it is the first 10
rows of some permutation of the user's joined rows that is sorted by playtime
descending. -/
def get_summary_rel (db : DB) (user_id : Int) (out : List (String × Int)) : Prop :=
  ∃ all : List (String × Int),
    all.Perm (summaryRows db user_id) ∧ sortedByPlaytimeDesc all = true ∧ out = all.take 10

/-! ### Concrete scenarios shared by several claims -/

/-- Equality of panic-or-success results is decidable, so concrete runs can
be settled by `decide`. -/
instance : DecidableEq (Except Unit Unit)
  | Except.ok (), Except.ok () => isTrue rfl
  | Except.error (), Except.error () => isTrue rfl
  | Except.ok (), Except.error () => isFalse (fun h => nomatch h)
  | Except.error (), Except.ok () => isFalse (fun h => nomatch h)

/-- The presence signal "user `uid` is playing `name` since second `startSec`"
(the gateway delivers the start time in milliseconds). -/
def playSig (uid : Int) (name : String) (startSec : Nat) : PresenceData :=
  ⟨uid, [⟨name, ActivityKind.Playing, some (startSec * 1000)⟩]⟩

/-- The presence signal "user `uid` is not playing anything". -/
def stopSig (uid : Int) : PresenceData := ⟨uid, []⟩

/-- A store holding one game (id 7), one playtime entry of 50 seconds for
user 1 on that game, and a live session for user 1 whose stored start time
is 200. -/
def c5db : DB :=
  { games := [⟨7, "G"⟩], game_entries := [⟨1, 7, 50⟩],
    game_sessions := [⟨1, 7, 200⟩], next_game_id := 8 }

/-- A store where user 9 has two persisted entries with equal playtime 5,
for games named "B" (id 1) and "A" (id 2). -/
def c7db : DB :=
  { games := [⟨1, "B"⟩, ⟨2, "A"⟩], game_entries := [⟨9, 1, 5⟩, ⟨9, 2, 5⟩],
    game_sessions := [], next_game_id := 3 }

/-- The persisted total for (user, game), read back the way `add_playtime`'s
own SELECT reads it. -/
def entryPlaytime (db : DB) (u g : Int) : Option Int :=
  (db.game_entries.find? (fun e => e.user_id == u && e.game_id == g)).map
    (fun e => e.playtime)

/-- The session table never holds two rows with the same (user_id, game_id)
key — the invariant enforced by the table's PRIMARY KEY. -/
def sessionsKeyUnique (db : DB) : Prop :=
  db.game_sessions.Pairwise (fun s t => ¬(s.user_id = t.user_id ∧ s.game_id = t.game_id))

/-- Lexicographic "less than or equal" on strings as character lists (the
ascending name order the claim refers to), written out so that it evaluates
inside the kernel. -/
def charListLE : List Char → List Char → Bool
  | [], _ => true
  | _ :: _, [] => false
  | c :: cs, d :: ds =>
    if c.toNat < d.toNat then true
    else if d.toNat < c.toNat then false
    else charListLE cs ds

/-- The ordering the claim asserts for the summary: playtime descending with
ties broken by activity name ascending. -/
def sortedByPlaytimeDescNameAsc : List (String × Int) → Bool
  | [] => true
  | [_] => true
  | a :: b :: rest =>
    (decide (b.2 < a.2) || (decide (b.2 = a.2) && charListLE a.1.data b.1.data))
      && sortedByPlaytimeDescNameAsc (b :: rest)

/-! ### C9 and C10 (confirmed directly) -/

/-- Claim C9: `reset u` removes exactly user u's session rows and playtime
entries — a row survives iff it was there before and belongs to another
user — and leaves the games catalog unchanged. -/
theorem C9_reset_frame : ∀ (db : DB) (u : Int),
    (∀ s : Session, s ∈ (reset db u).game_sessions ↔ s ∈ db.game_sessions ∧ s.user_id ≠ u) ∧
    (∀ e : Entry, e ∈ (reset db u).game_entries ↔ e ∈ db.game_entries ∧ e.user_id ≠ u) ∧
    (reset db u).games = db.games := by
  intro db u
  refine ⟨fun s => ?_, fun e => ?_, rfl⟩ <;>
    simp [reset, List.mem_filter]

/-- Claim C10: a presence signal whose first activity is not of kind
`Playing` leaves the store untouched and the handler returns cleanly. -/
theorem C10_non_playing_first_activity_noop (db : DB) (u : Int)
    (a : PresenceActivity) (rest : List PresenceActivity) (t : Int)
    (h : a.kind ≠ ActivityKind.Playing) :
    presence_update db ⟨u, a :: rest⟩ t = (db, Except.ok ()) := by
  rcases a with ⟨name, kind, sm⟩
  cases kind
  · exact absurd rfl h
  all_goals simp [presence_update]

/-- Witness for C10 at a concrete streaming activity. -/
theorem C10_non_playing_first_activity_noop_witness :
    presence_update emptyDB ⟨1, [⟨"S", ActivityKind.Streaming, some 0⟩]⟩ 0
      = (emptyDB, Except.ok ()) :=
  C10_non_playing_first_activity_noop emptyDB 1 ⟨"S", ActivityKind.Streaming, some 0⟩ [] 0
    (by decide)

/-! ### Counterexamples and concrete evaluations -/

/-- Claim C1 counterexample: from the empty store, "user 1 playing X since
100" followed by "user 1 playing Y since 200" leaves TWO live session rows
for user 1 — the `game_sessions` primary key is (user_id, game_id), not
user_id, and `register_session` never closes the previous session. -/
theorem C1_two_live_sessions_for_one_user :
    ¬(((runSignals emptyDB [(playSig 1 "X" 100, 0), (playSig 1 "Y" 200, 0)]).game_sessions.filter
        (fun s => s.user_id == 1)).length ≤ 1) := by decide

/-- Claim C2 counterexample: sending "user 1 playing X since 100" twice in a
row makes the second handler invocation hit the (user_id, game_id) primary
key of `game_sessions` and panic (`.unwrap()` on the failed INSERT) — the
second processing does not succeed. -/
theorem C2_second_identical_signal_panics :
    (presence_update (presence_update emptyDB (playSig 1 "X" 100) 0).1
        (playSig 1 "X" 100) 0).2 = Except.error () := by decide

/-- Claim C3 counterexample: with user 1 Active(X, 100), the signal "playing
Y since 200" observed at time 300 neither folds 300 − 100 = 200 into the
playtime of (1, X) (the entries table stays empty) nor removes X's session
row (it is still live next to Y's). -/
theorem C3_switch_does_not_close_old_session :
    (runSignals emptyDB [(playSig 1 "X" 100, 0), (playSig 1 "Y" 200, 300)]).game_entries = []
      ∧ (⟨1, 1, 100⟩ : Session) ∈
          (runSignals emptyDB [(playSig 1 "X" 100, 0), (playSig 1 "Y" 200, 300)]).game_sessions := by
  decide

/-- Claim C4 failing run: user 42 plays Chess since 1000 and stops at 1050
(entry created with 50 by INSERT, trigger removes the session); plays Chess
since 2000 and stops at 2030 (entry updated to 80).  The fold went through
the UPDATE branch of `add_playtime`, the trigger fires only AFTER INSERT, so
the session row (42, Chess, 2000) is still live — and a further "not
playing" at 2040 folds the same session again, reaching 120 instead of
leaving 80. -/
theorem C4_update_path_leaves_session_row_and_double_counts :
    (runSignals emptyDB [(playSig 42 "Chess" 1000, 0), (stopSig 42, 1050),
        (playSig 42 "Chess" 2000, 0), (stopSig 42, 2030)]).game_entries = [⟨42, 1, 80⟩]
      ∧ (runSignals emptyDB [(playSig 42 "Chess" 1000, 0), (stopSig 42, 1050),
          (playSig 42 "Chess" 2000, 0), (stopSig 42, 2030)]).game_sessions = [⟨42, 1, 2000⟩]
      ∧ (runSignals emptyDB [(playSig 42 "Chess" 1000, 0), (stopSig 42, 1050),
          (playSig 42 "Chess" 2000, 0), (stopSig 42, 2030), (stopSig 42, 2040)]).game_entries
          = [⟨42, 1, 120⟩] := by decide

/-- Claim C5 counterexample: closing user 1's session of `c5db` (stored
start time 200) at observation time 100 feeds the negative elapsed
100 − 200 = −100 into the accumulator unclamped: the persisted total drops
from 50 to −50. -/
theorem C5_negative_elapsed_decreases_total :
    c5db.game_entries = [⟨1, 7, 50⟩]
      ∧ (save_session c5db 1 100).1.game_entries = [⟨1, 7, -50⟩] := by decide

/-- Claim C6 counterexample: `add_playtime` with seconds = −20 is not
rejected: it returns cleanly and mutates the entry from 50 down to 30. -/
theorem C6_negative_seconds_accepted :
    (add_playtime c5db 1 7 (-20)).2 = Except.ok ()
      ∧ (add_playtime c5db 1 7 (-20)).1.game_entries = [⟨1, 7, 30⟩] := by decide

/-- Claim C8 counterexample: `resetall` does not leave the activity catalog
unchanged — it runs `DELETE FROM games;` and empties it. -/
theorem C8_resetall_deletes_catalog :
    (resetall c5db).games ≠ c5db.games := by decide

/-- Claim C8 (amended): `resetall` clears the playtime entries, the session
rows AND the whole games catalog; afterwards every user's summary join is
empty. -/
theorem C8_resetall_clears_everything : ∀ db : DB,
    (resetall db).game_entries = [] ∧ (resetall db).game_sessions = []
      ∧ (resetall db).games = [] ∧ ∀ u : Int, summaryRows (resetall db) u = [] := by
  intro db
  refine ⟨rfl, rfl, rfl, fun u => ?_⟩
  simp [resetall, summaryRows]

/-- Claim C5 (amended): closing a live session feeds the raw difference
observation − start into the accumulator, with no clamping. -/
theorem C5_elapsed_unclamped (db : DB) (u t : Int) (row : Session)
    (h : db.game_sessions.find? (fun s => s.user_id == u) = some row) :
    save_session db u t = add_playtime db u row.game_id (t - row.starttime) := by
  simp only [save_session, h]

/-- Witness for C5: in `c5db` the stored start time 200 lies after the
observation time 100, and the accumulator receives 100 − 200 = −100. -/
theorem C5_elapsed_unclamped_witness :
    save_session c5db 1 100 = add_playtime c5db 1 7 (100 - 200) :=
  C5_elapsed_unclamped c5db 1 100 ⟨1, 7, 200⟩ (by decide)

/-- Claim C6 (amended): `add_playtime` performs no sign validation. -/
theorem C6_add_playtime_no_validation (db : DB) (u g s : Int)
    (hg : db.games.any (fun gm => gm.game_id == g) = true) :
    (add_playtime db u g s).2 = Except.ok ()
      ∧ entryPlaytime (add_playtime db u g s).1 u g
          = some ((entryPlaytime db u g).getD 0 + s) := by
  cases hfind : db.game_entries.find? (fun e => e.user_id == u && e.game_id == g) with
  | none =>
    refine ⟨by simp [add_playtime, hfind, hg], ?_⟩
    simp only [add_playtime, hfind, hg, if_true, entryPlaytime]
    rw [List.find?_append, hfind]
    simp [entryPlaytime, hfind]
  | some e =>
    have hpe := List.find?_some hfind
    simp only [Bool.and_eq_true, beq_iff_eq] at hpe
    refine ⟨by simp [add_playtime, hfind], ?_⟩
    simp only [add_playtime, hfind, entryPlaytime]
    rw [List.find?_map]
    have hcomp : ((fun x : Entry => x.user_id == u && x.game_id == g) ∘ fun x : Entry =>
        if x.user_id == u && x.game_id == g then { x with playtime := x.playtime + s } else x)
        = fun x : Entry => x.user_id == u && x.game_id == g := by
      funext x
      cases hb : (x.user_id == u && x.game_id == g) with
      | false => simp [Function.comp, hb]
      | true => simp [Function.comp, hb]
    rw [hcomp, hfind]
    simp [hpe.1, hpe.2]

/-- Witness for C6: adding −5 seconds to the existing 50-second entry of
`c5db` succeeds and yields 45. -/
theorem C6_add_playtime_no_validation_witness :
    (add_playtime c5db 1 7 (-5)).2 = Except.ok ()
      ∧ entryPlaytime (add_playtime c5db 1 7 (-5)).1 1 7
          = some ((entryPlaytime c5db 1 7).getD 0 + (-5)) :=
  C6_add_playtime_no_validation c5db 1 7 (-5) (by decide)

/-! ### Effect lemmas for `register_session` -/

/-- `add_game` touches only the games table and the serial counter. -/
theorem add_game_frame (db : DB) (n : String) :
    (add_game db n).1.game_entries = db.game_entries
      ∧ (add_game db n).1.game_sessions = db.game_sessions := by
  unfold add_game; split <;> exact ⟨rfl, rfl⟩

/-- Claim C3 (amended): a `Playing` presence signal never touches the
playtime entries, and either leaves the session table unchanged (handler
panic) or appends exactly one new live row, leaving every existing live
session — in particular the current activity's — in place. -/
theorem C3_playing_signal_only_appends_session (db : DB) (u : Int) (n : String)
    (ms : Nat) (t : Int) :
    (presence_update db ⟨u, [⟨n, ActivityKind.Playing, some ms⟩]⟩ t).1.game_entries
        = db.game_entries
      ∧ ((presence_update db ⟨u, [⟨n, ActivityKind.Playing, some ms⟩]⟩ t).1.game_sessions
            = db.game_sessions
          ∨ ∃ gid : Int,
              (presence_update db ⟨u, [⟨n, ActivityKind.Playing, some ms⟩]⟩ t).1.game_sessions
                = db.game_sessions ++ [⟨u, gid, Int.ofNat (ms / 1000)⟩]) := by
  have hred : presence_update db ⟨u, [⟨n, ActivityKind.Playing, some ms⟩]⟩ t
      = register_session db u n (Int.ofNat (ms / 1000)) := by
    simp [presence_update]
  rw [hred]
  unfold register_session
  split
  next db1 e heq =>
    have hdb1 : db1 = db := by
      split at heq
      · simp at heq
      · unfold add_game at heq
        split at heq
        · exact (congrArg Prod.fst heq).symm
        · simp at heq
    subst hdb1
    exact ⟨rfl, Or.inl rfl⟩
  next db1 val heq =>
    have hfr : db1.game_entries = db.game_entries ∧ db1.game_sessions = db.game_sessions := by
      split at heq
      · cases heq; exact ⟨rfl, rfl⟩
      · have := add_game_frame db n
        rw [heq] at this
        exact this
    split
    · exact ⟨hfr.1, Or.inl hfr.2⟩
    next gid heq2 =>
      split
      · exact ⟨hfr.1, Or.inl hfr.2⟩
      · exact ⟨hfr.1, Or.inr ⟨gid, by rw [hfr.2]⟩⟩

/-- A successful `register_session` leaves the store in a state where the
game name resolves (the catalog contains it) and the (user, game) key is now
present in the session table. -/
theorem register_session_ok_state (db : DB) (u : Int) (n : String) (T : Int)
    (h : (register_session db u n T).2 = Except.ok ()) :
    ∃ gid : Int,
      is_game_in_db (register_session db u n T).1 n = true
        ∧ get_game_id (register_session db u n T).1 n = Except.ok gid
        ∧ ((register_session db u n T).1.game_sessions.any
            (fun s => s.user_id == u && s.game_id == gid)) = true := by
  unfold register_session at h ⊢
  split at h
  next db1 e heq => simp at h
  next db1 val heq =>
    split at h
    next heq2 => simp at h
    next gid heq2 =>
      split at h
      next hany => simp at h
      next hany =>
        -- the insert succeeded: the result is db1 with the new row appended
        rw [if_neg hany]
        refine ⟨gid, ?_, ?_, ?_⟩
        · have : is_game_in_db db1 n = true := by
            unfold get_game_id at heq2
            unfold is_game_in_db
            cases hf : db1.games.find? (fun g => g.name == n) with
            | none => rw [hf] at heq2; cases heq2
            | some g => rfl
          exact this
        · exact heq2
        · simp

/-- When the game resolves and the (user, game) session key is already
present, `register_session` panics on the primary-key violation and leaves
the store untouched. -/
theorem register_session_duplicate_panics (db : DB) (u : Int) (n : String) (T : Int)
    (gid : Int)
    (h1 : is_game_in_db db n = true)
    (h2 : get_game_id db n = Except.ok gid)
    (h3 : (db.game_sessions.any (fun s => s.user_id == u && s.game_id == gid)) = true) :
    register_session db u n T = (db, Except.error ()) := by
  unfold register_session
  rw [if_pos h1]
  simp only [h2]
  rw [if_pos h3]

/-- Claim C2 (amended): after a successful "playing X since T", processing
the same signal again makes the handler panic on the `game_sessions`
primary-key violation; the store is exactly the state left by the first
processing — no second session row, no playtime change. -/
theorem C2_duplicate_signal_fails_state_unchanged (db : DB) (u : Int) (n : String)
    (s : Nat) (t1 t2 : Int)
    (h : (presence_update db (playSig u n s) t1).2 = Except.ok ()) :
    presence_update (presence_update db (playSig u n s) t1).1 (playSig u n s) t2
      = ((presence_update db (playSig u n s) t1).1, Except.error ()) := by
  have hred : ∀ (d : DB) (tt : Int), presence_update d (playSig u n s) tt
      = register_session d u n (Int.ofNat (s * 1000 / 1000)) := by
    intro d tt
    simp [presence_update, playSig]
  rw [hred] at h ⊢
  rw [hred]
  obtain ⟨gid, hg1, hg2, hg3⟩ := register_session_ok_state db u n (Int.ofNat (s * 1000 / 1000)) h
  exact register_session_duplicate_panics _ u n _ gid hg1 hg2 hg3

/-- Witness for C2: user 1 sends "playing X since second 100" twice from the
empty store; the first succeeds and the second panics without mutating. -/
theorem C2_duplicate_signal_fails_state_unchanged_witness :
    presence_update (presence_update emptyDB (playSig 1 "X" 100) 0).1 (playSig 1 "X" 100) 5
      = ((presence_update emptyDB (playSig 1 "X" 100) 0).1, Except.error ()) :=
  C2_duplicate_signal_fails_state_unchanged emptyDB 1 "X" 100 0 5 (by decide)

/-! ### The per-(user, game) session-key invariant (claim C1) -/

theorem add_playtime_keyUnique (db : DB) (u g p : Int) (h : sessionsKeyUnique db) :
    sessionsKeyUnique (add_playtime db u g p).1 := by
  unfold add_playtime
  cases hf : db.game_entries.find? (fun e => e.user_id == u && e.game_id == g) with
  | none =>
    by_cases hg : (db.games.any fun gm => gm.game_id == g) = true
    · rw [if_pos hg]
      exact List.Pairwise.filter _ h
    · rw [if_neg hg]
      exact h
  | some e => exact h

theorem save_session_keyUnique (db : DB) (u t : Int) (h : sessionsKeyUnique db) :
    sessionsKeyUnique (save_session db u t).1 := by
  unfold save_session
  cases hf : db.game_sessions.find? (fun s => s.user_id == u) with
  | none => exact h
  | some row => exact add_playtime_keyUnique db u row.game_id (t - row.starttime) h

theorem register_session_keyUnique (db : DB) (u : Int) (n : String) (T : Int)
    (h : sessionsKeyUnique db) :
    sessionsKeyUnique (register_session db u n T).1 := by
  unfold register_session
  split
  next db1 e heq =>
    have hsess : db1.game_sessions = db.game_sessions := by
      split at heq
      · simp at heq
      · unfold add_game at heq
        split at heq
        · cases heq; rfl
        · simp at heq
    unfold sessionsKeyUnique
    rw [hsess]
    exact h
  next db1 val heq =>
    have hsess : db1.game_sessions = db.game_sessions := by
      split at heq
      · cases heq; rfl
      · have := add_game_frame db n
        rw [heq] at this
        exact this.2
    split
    · unfold sessionsKeyUnique; rw [hsess]; exact h
    next gid heq2 =>
      split
      next hany => unfold sessionsKeyUnique; rw [hsess]; exact h
      next hany =>
        unfold sessionsKeyUnique
        simp only [List.pairwise_append]
        refine ⟨hsess ▸ h, by simp, ?_⟩
        intro a ha b hb
        simp only [List.mem_singleton] at hb
        subst hb
        rintro ⟨hu, hgid⟩
        rw [Bool.not_eq_true] at hany
        have hall := List.any_eq_false.mp hany a ha
        simp only [Bool.and_eq_true, beq_iff_eq] at hall
        exact hall ⟨hu, hgid⟩

theorem presence_update_keyUnique (db : DB) (p : PresenceData) (t : Int)
    (h : sessionsKeyUnique db) :
    sessionsKeyUnique (presence_update db p t).1 := by
  rcases p with ⟨u, acts⟩
  cases acts with
  | nil => exact save_session_keyUnique db u t h
  | cons a rest =>
    simp only [presence_update]
    by_cases hk : (a.kind == ActivityKind.Playing) = true
    · rw [if_pos hk]
      cases hms : a.start_ms with
      | none => exact h
      | some ms => exact register_session_keyUnique _ u a.name _ h
    · rw [if_neg hk]
      exact h

theorem runSignals_keyUnique (sigs : List (PresenceData × Int)) :
    ∀ db : DB, sessionsKeyUnique db → sessionsKeyUnique (runSignals db sigs) := by
  induction sigs with
  | nil => intro db h; exact h
  | cons pt rest ih =>
    intro db h
    exact ih (presence_update db pt.1 pt.2).1 (presence_update_keyUnique db pt.1 pt.2 h)

/-- In a pairwise key-distinct session list, at most one row matches any
given (user, game) key. -/
theorem length_filter_key_le_one (l : List Session)
    (hp : l.Pairwise (fun s t => ¬(s.user_id = t.user_id ∧ s.game_id = t.game_id)))
    (u g : Int) :
    (l.filter (fun s => s.user_id == u && s.game_id == g)).length ≤ 1 := by
  have hpf := hp.filter (fun s => s.user_id == u && s.game_id == g)
  cases hf : l.filter (fun s => s.user_id == u && s.game_id == g) with
  | nil => simp
  | cons x tl =>
    cases tl with
    | nil => simp
    | cons y tl2 =>
      exfalso
      rw [hf] at hpf
      have hrel := (List.pairwise_cons.mp hpf).1 y (List.mem_cons_self y tl2)
      have hx : x ∈ l.filter (fun s => s.user_id == u && s.game_id == g) := by
        rw [hf]; exact List.mem_cons_self ..
      have hy : y ∈ l.filter (fun s => s.user_id == u && s.game_id == g) := by
        rw [hf]; exact List.mem_cons_of_mem _ (List.mem_cons_self ..)
      have hxp := List.of_mem_filter hx
      have hyp := List.of_mem_filter hy
      simp only [Bool.and_eq_true, beq_iff_eq] at hxp hyp
      exact hrel ⟨hxp.1.trans hyp.1.symm, hxp.2.trans hyp.2.symm⟩

/-- Claim C1 (amended): from the empty store, every sequence of presence
signals leaves at most one live session row per (user, activity) pair — the
`game_sessions` primary key — but a user switching activities accumulates
one live row per activity, so "at most one session row per user" does not
hold (see the counterexample). -/
theorem C1_at_most_one_session_per_user_game
    (sigs : List (PresenceData × Int)) (u g : Int) :
    ((runSignals emptyDB sigs).game_sessions.filter
        (fun s => s.user_id == u && s.game_id == g)).length ≤ 1 :=
  length_filter_key_le_one _
    (runSignals_keyUnique sigs emptyDB (List.Pairwise.nil)) u g

/-! ### The summary query (claim C7) -/

theorem sortedByPlaytimeDesc_iff_chain (l : List (String × Int)) :
    sortedByPlaytimeDesc l = true ↔ l.Chain' (fun a b => b.2 ≤ a.2) := by
  induction l with
  | nil => simp [sortedByPlaytimeDesc]
  | cons a tl ih =>
    cases tl with
    | nil => simp [sortedByPlaytimeDesc]
    | cons b tl2 =>
      rw [sortedByPlaytimeDesc, List.chain'_cons, Bool.and_eq_true, decide_eq_true_iff, ih]

/-- Claim C7 (amended): a possible result of the summary query has at most
10 rows, is sorted by playtime descending, and only contains rows of the
user's persisted join — but equal-playtime rows come in no guaranteed
order (`ORDER BY playtime DESC` has no secondary key), so the "ties broken
by activity name ascending" part of the claim fails; see the
counterexample. -/
theorem C7_summary_bounded_sorted_persisted (db : DB) (u : Int)
    (out : List (String × Int)) (h : get_summary_rel db u out) :
    out.length ≤ 10 ∧ sortedByPlaytimeDesc out = true
      ∧ ∀ r ∈ out, r ∈ summaryRows db u := by
  obtain ⟨all, hperm, hsort, hout⟩ := h
  subst hout
  refine ⟨List.length_take_le _ _, ?_, ?_⟩
  · rw [sortedByPlaytimeDesc_iff_chain] at hsort ⊢
    exact hsort.take _
  · intro r hr
    exact hperm.subset ((List.take_sublist _ _).subset hr)

/-- Witness for C7 on the concrete two-row store `c7db`. -/
theorem C7_summary_bounded_sorted_persisted_witness :
    (summaryRows c7db 9).length ≤ 10
      ∧ sortedByPlaytimeDesc (summaryRows c7db 9) = true := by
  have h := C7_summary_bounded_sorted_persisted c7db 9 (summaryRows c7db 9)
    ⟨summaryRows c7db 9, List.Perm.refl _, by decide, by decide⟩
  exact ⟨h.1, h.2.1⟩

/-- Claim C7 counterexample: on `c7db` (games "B" and "A", both with
playtime 5 for user 9) the query may return [("B", 5), ("A", 5)] — a valid
`ORDER BY playtime DESC` answer whose tie is NOT in ascending name order. -/
theorem C7_ties_not_name_ascending :
    get_summary_rel c7db 9 [("B", 5), ("A", 5)]
      ∧ sortedByPlaytimeDescNameAsc [("B", 5), ("A", 5)] = false := by
  constructor
  · refine ⟨[("B", 5), ("A", 5)], ?_, by decide, by decide⟩
    have h : summaryRows c7db 9 = [("B", 5), ("A", 5)] := by decide
    rw [h]
  · decide
